import Mathlib

/-!
# Verification of the IntelliQuery multi-backend query agent framework

Shallow embedding of the query-generation / read-only-validation / execution
pipeline of the IntelliQuery backend (`backend/ai/agents/{base,sql_agent,
mongo_agent,pandas_agent}.py` and `backend/ai/ai_router.py`).

Modelling conventions:
* Python strings are modelled as `List Char` (with `String` wrappers at the
  API boundary); `str.upper` / `str.lower` / `str.strip` are modelled for the
  ASCII range, which covers every keyword and pattern the validators use.
* The specific regular expressions appearing in the source are modelled by
  dedicated executable scanners implementing exactly the semantics of each
  pattern (word boundaries `\b` track whether the previous character is a
  word character; `\s*` / `\w+` / `[^)]*` are modelled with explicit scans).
* External library calls (`json.loads`, `ast.parse`, the database drivers and
  the two LLM clients) are modelled as oracle inputs: a parse result, a
  health flag, optional generated strings, and row sets, handed to the
  embedded functions as arguments.
* Python exceptions escaping a function are modelled with `Except`; functions
  that catch all their internal exceptions are total.
-/

namespace IntelliQuery

/-- Python `\w` word character (ASCII range of the regex word class). -/
def isWordChar (c : Char) : Bool := c.isAlphanum || c == '_'

/-- Python whitespace as used by `str.strip` and the regex class `\s` (ASCII range). -/
def pyIsSpace (c : Char) : Bool :=
  c == ' ' || c == '\t' || c == '\n' || c == '\r' || c == '\x0b' || c == '\x0c'

/-- ASCII model of Python `str.upper` on one character. -/
def pyCharUpper (c : Char) : Char :=
  if 97 ≤ c.toNat ∧ c.toNat ≤ 122 then Char.ofNat (c.toNat - 32) else c

/-- ASCII model of Python `str.lower` on one character. -/
def pyCharLower (c : Char) : Char :=
  if 65 ≤ c.toNat ∧ c.toNat ≤ 90 then Char.ofNat (c.toNat + 32) else c

/-- Model of Python `str.upper`. -/
def pyUpperL (s : List Char) : List Char := s.map pyCharUpper

/-- Model of Python `str.lower`. -/
def pyLowerL (s : List Char) : List Char := s.map pyCharLower

/-- Model of Python `str.strip()`: drop whitespace from both ends. -/
def pyStripL (s : List Char) : List Char :=
  ((s.dropWhile pyIsSpace).reverse.dropWhile pyIsSpace).reverse

/-- `String` wrapper for `pyStripL`. -/
def pyStripS (s : String) : String := ⟨pyStripL s.data⟩

/-- Model of Python `str.split(';')`: split at every separator, keeping empty
pieces (`"a;;b".split(';') == ["a", "", "b"]`). -/
def splitSemi : List Char → List (List Char)
  | [] => [[]]
  | c :: cs =>
    let r := splitSemi cs
    if c == ';' then [] :: r
    else
      match r with
      | h :: t => (c :: h) :: t
      | [] => [[c]]

/-- Remainder of `s` after the literal prefix `p`, if `p` is a prefix. -/
def dropLit : List Char → List Char → Option (List Char)
  | [], s => some s
  | _ :: _, [] => none
  | p :: ps, c :: cs => if p == c then dropLit ps cs else none

/-- Matcher for the tail of the regex `KW\b` against a suffix of the subject:
the keyword must be a literal prefix and the following character (if any)
must not be a word character. -/
def kwSuffixMatch : List Char → List Char → Bool
  | [], [] => true
  | [], c :: _ => !isWordChar c
  | _ :: _, [] => false
  | k :: ks, c :: cs => k == c && kwSuffixMatch ks cs

/-- Scanner for `re.search` of `\bKW\b`: `b` records whether the position
just before the current suffix is a word boundary for a word-character start
(`true` at the beginning of the subject, afterwards the negation of the
previous character being a word character). -/
def kwScan (kw : List Char) : Bool → List Char → Bool
  | b, [] => b && kwSuffixMatch kw []
  | b, c :: cs => (b && kwSuffixMatch kw (c :: cs)) || kwScan kw (!isWordChar c) cs

/-- `re.search` of `\bKW\b` produces a match. -/
def containsKw (kw s : List Char) : Bool := kwScan kw true s

/-- `FORBIDDEN_SQL_KEYWORDS` of `sql_agent.py` (the raw keyword of each
`\bKW\b` pattern, as the source recovers it by deleting the boundary markers). -/
def FORBIDDEN_SQL_KEYWORDS : List String :=
  ["INSERT", "UPDATE", "DELETE", "DROP", "CREATE", "ALTER", "TRUNCATE",
   "GRANT", "REVOKE", "EXEC", "EXECUTE", "MERGE", "REPLACE", "CALL"]

/-- `[s.strip() for s in generated_query.split(';') if s.strip()]`. -/
def sqlStatements (q : String) : List (List Char) :=
  ((splitSemi q.data).map pyStripL).filter (· ≠ [])

/-- `SQLAgent.validate_readonly`: uppercase and strip the query, require a
`SELECT`/`WITH` start, reject any denylisted keyword occurring as a whole
word, and reject multiple `;`-separated non-empty statements. -/
def sqlValidateReadonly (q : String) : Bool × String :=
  let qUpper := pyStripL (pyUpperL q.data)
  if !(("SELECT".data.isPrefixOf qUpper) || ("WITH".data.isPrefixOf qUpper)) then
    (false, "Query must start with SELECT or WITH")
  else
    match FORBIDDEN_SQL_KEYWORDS.find? (fun kw => containsKw kw.data qUpper) with
    | some kw => (false, "Forbidden keyword detected: " ++ kw)
    | none =>
      if (sqlStatements q).length > 1 then (false, "Multiple statements not allowed")
      else (true, "")

example : (sqlValidateReadonly ("SELECT * FROM t")).1 = true := by decide
example : (sqlValidateReadonly ("SELECT * FROM t WHERE x IN (SELECT y FROM u); drop TABLE t")).1 = false := by decide
example : sqlValidateReadonly ("DELETE FROM t") = (false, "Query must start with SELECT or WITH") := by decide
example : sqlValidateReadonly ("SELECT 1; SELECT 2") = (false, "Multiple statements not allowed") := by decide

lemma space_not_word {c : Char} (h : pyIsSpace c = true) : isWordChar c = false := by
  simp only [pyIsSpace, Bool.or_eq_true, beq_iff_eq] at h
  rcases h with ((((rfl | rfl) | rfl) | rfl) | rfl) | rfl <;> decide

lemma word_bne_space {k c : Char} (hk : isWordChar k = true) (hc : pyIsSpace c = true) :
    (k == c) = false := by
  have hne : k ≠ c := by
    intro h
    rw [h, space_not_word hc] at hk
    exact Bool.noConfusion hk
  exact beq_eq_false_iff_ne.mpr hne

lemma kwSuffixMatch_nil_of_ne {kw : List Char} (h : kw ≠ []) : kwSuffixMatch kw [] = false := by
  cases kw with
  | nil => exact absurd rfl h
  | cons k ks => rfl

lemma kwSuffixMatch_append_sp {kw sp : List Char}
    (hkw : ∀ c ∈ kw, isWordChar c = true) (hsp : ∀ c ∈ sp, pyIsSpace c = true) :
    ∀ t, kwSuffixMatch kw (t ++ sp) = kwSuffixMatch kw t := by
  intro t
  induction t generalizing kw with
  | nil =>
    cases kw with
    | nil =>
      cases sp with
      | nil => rfl
      | cons c cs =>
        have hc : pyIsSpace c = true := hsp c (by simp)
        simp [kwSuffixMatch, space_not_word hc]
    | cons k ks =>
      cases sp with
      | nil => rfl
      | cons c cs =>
        have hk : isWordChar k = true := hkw k (by simp)
        have hc : pyIsSpace c = true := hsp c (by simp)
        simp [kwSuffixMatch, word_bne_space hk hc]
  | cons a t' ih =>
    cases kw with
    | nil => simp [kwSuffixMatch]
    | cons k ks =>
      have ihk := @ih ks (fun c hc => hkw c (List.mem_cons_of_mem _ hc))
      simp only [List.cons_append, kwSuffixMatch, List.append_eq, ihk]

lemma kwScan_sp {kw sp : List Char} (hne : kw ≠ [])
    (hkw : ∀ c ∈ kw, isWordChar c = true) (hsp : ∀ c ∈ sp, pyIsSpace c = true) :
    ∀ b, kwScan kw b sp = false := by
  induction sp with
  | nil =>
    intro b
    simp [kwScan, kwSuffixMatch_nil_of_ne hne]
  | cons c cs ih =>
    intro b
    obtain ⟨k, ks, rfl⟩ : ∃ k ks, kw = k :: ks := by
      cases kw with
      | nil => exact absurd rfl hne
      | cons k ks => exact ⟨k, ks, rfl⟩
    have hk : isWordChar k = true := hkw k (by simp)
    have hc : pyIsSpace c = true := hsp c (by simp)
    have ihc := ih (fun x hx => hsp x (List.mem_cons_of_mem _ hx))
    simp [kwScan, kwSuffixMatch, word_bne_space hk hc, ihc]

lemma kwScan_append_sp {kw sp : List Char} (hne : kw ≠ [])
    (hkw : ∀ c ∈ kw, isWordChar c = true) (hsp : ∀ c ∈ sp, pyIsSpace c = true) :
    ∀ t b, kwScan kw b (t ++ sp) = kwScan kw b t := by
  intro t
  induction t with
  | nil =>
    intro b
    rw [List.nil_append, kwScan_sp hne hkw hsp b]
    simp [kwScan, kwSuffixMatch_nil_of_ne hne]
  | cons c cs ih =>
    intro b
    simp only [List.cons_append, kwScan, List.append_eq, ih]
    rw [show c :: (cs ++ sp) = (c :: cs) ++ sp from rfl,
      kwSuffixMatch_append_sp hkw hsp (c :: cs)]

lemma kwScan_cons_sp {kw : List Char} {c : Char} (hne : kw ≠ [])
    (hkw : ∀ x ∈ kw, isWordChar x = true) (hc : pyIsSpace c = true) (cs : List Char) :
    kwScan kw true (c :: cs) = kwScan kw true cs := by
  obtain ⟨k, ks, rfl⟩ : ∃ k ks, kw = k :: ks := by
    cases kw with
    | nil => exact absurd rfl hne
    | cons k ks => exact ⟨k, ks, rfl⟩
  have hk : isWordChar k = true := hkw k (by simp)
  simp [kwScan, kwSuffixMatch, word_bne_space hk hc, space_not_word hc]

lemma containsKw_dropWhile {kw : List Char} (hne : kw ≠ [])
    (hkw : ∀ c ∈ kw, isWordChar c = true) :
    ∀ s, containsKw kw (s.dropWhile pyIsSpace) = containsKw kw s := by
  intro s
  induction s with
  | nil => rfl
  | cons c cs ih =>
    by_cases hc : pyIsSpace c = true
    · rw [List.dropWhile_cons_of_pos hc, ih]
      exact (kwScan_cons_sp hne hkw hc cs).symm
    · rw [List.dropWhile_cons_of_neg (by simpa using hc)]

lemma containsKw_strip {kw s : List Char} (hne : kw ≠ [])
    (hkw : ∀ c ∈ kw, isWordChar c = true) (h : containsKw kw s = true) :
    containsKw kw (pyStripL s) = true := by
  set s1 := s.dropWhile pyIsSpace with hs1
  have h1 : containsKw kw s1 = true := by
    rw [hs1, containsKw_dropWhile hne hkw s]
    exact h
  have hdecomp : s1 = pyStripL s ++ (s1.reverse.takeWhile pyIsSpace).reverse := by
    conv_lhs => rw [← List.reverse_reverse s1,
      ← List.takeWhile_append_dropWhile pyIsSpace s1.reverse]
    rw [List.reverse_append]
    rfl
  have hsp : ∀ c ∈ (s1.reverse.takeWhile pyIsSpace).reverse, pyIsSpace c = true := by
    intro c hc
    exact List.mem_takeWhile_imp (List.mem_reverse.mp hc)
  rw [hdecomp] at h1
  show kwScan kw true (pyStripL s) = true
  rw [← kwScan_append_sp hne hkw hsp (pyStripL s) true]
  exact h1

/-- The denylisted keywords are non-empty and made of word characters only. -/
lemma forbiddenSqlKeywordsOk :
    FORBIDDEN_SQL_KEYWORDS.all (fun kw => !kw.data.isEmpty && kw.data.all isWordChar) = true := by
  decide

/-- C1: a relational query containing any denylisted mutating keyword as a
whole word, in any letter case and at any position, is rejected by
`SQLAgent.validate_readonly` (either by the keyword denylist or, when it also
fails to start with SELECT/WITH, by the start-keyword check). -/
theorem C1_sql_denylist_rejects (q kw : String) (hmem : kw ∈ FORBIDDEN_SQL_KEYWORDS)
    (hocc : containsKw kw.data (pyUpperL q.data) = true) :
    (sqlValidateReadonly q).1 = false := by
  have hprops := List.all_eq_true.mp forbiddenSqlKeywordsOk kw hmem
  rw [Bool.and_eq_true] at hprops
  have hne : kw.data ≠ [] := by
    rcases hprops with ⟨h1, _⟩
    simpa using h1
  have hword : ∀ c ∈ kw.data, isWordChar c = true := List.all_eq_true.mp hprops.2
  have hocc' : containsKw kw.data (pyStripL (pyUpperL q.data)) = true :=
    containsKw_strip hne hword hocc
  simp only [sqlValidateReadonly]
  split
  · rfl
  · rcases hf : List.find? (fun kw => containsKw kw.data (pyStripL (pyUpperL q.data)))
        FORBIDDEN_SQL_KEYWORDS with _ | kw'
    · exact absurd hocc' (by simpa using List.find?_eq_none.mp hf kw hmem)
    · rw [hf]

/-- Witness for C1 at a concrete input: `DROP` smuggled into the middle of a
SELECT statement (lower case) is rejected. -/
theorem C1_sql_denylist_rejects_witness :
    ("DROP" ∈ FORBIDDEN_SQL_KEYWORDS ∧
      containsKw "DROP".data (pyUpperL ("SELECT drop FROM t").data) = true) ∧
    (sqlValidateReadonly ("SELECT drop FROM t")).1 = false :=
  ⟨⟨by decide, by decide⟩,
    C1_sql_denylist_rejects ("SELECT drop FROM t") ("DROP") (by decide) (by decide)⟩

/-! ## JSON values, execution results, pipeline outcomes -/

/-- JSON values as produced by `json.loads` (numbers restricted to integers:
no claim depends on floats). -/
inductive JVal where
  | str (s : String)
  | num (n : Int)
  | boolVal (b : Bool)
  | null
  | arr (elems : List JVal)
  | obj (fields : List (String × JVal))

/-- A normalized result row: a JSON-style mapping from column names to
values, in insertion order. -/
abbrev Row := List (String × JVal)

/-- The normalized `{"data": …, "columns": …, "row_count": …}` dictionary
the `execute_query` of every agent returns on success. -/
structure ExecData where
  data : List Row
  columns : List String
  row_count : Nat

/-- A Python exception escaping a validator (the only uncaught exception kind
reachable in the embedded code is `AttributeError`). -/
inductive PyErr where
  | attributeError (msg : String)
deriving DecidableEq

/-- `str(e)` for an exception. -/
def pyErrStr : PyErr → String
  | .attributeError m => m

/-- The dictionary returned by `BaseAgent.process`; absent keys are `none`
(`generated_query` is absent in the generation-failure branch). -/
structure Outcome where
  success : Bool
  generated_query : Option String
  results : Option (List Row)
  columns : Option (List String)
  row_count : Option Nat
  error : Option String
  llm_used : String

/-- `DataSourceType` from `ai/schemas.py`. -/
inductive DataSourceType where
  | SQL
  | MONGO
  | PANDAS
deriving DecidableEq

/-- `QueryResponse` from `ai/schemas.py` (only fields the router populates;
`results` is always a row list in the embedded pipeline). -/
structure QueryResponse where
  success : Bool
  query : String
  generated_query : String
  datasource_type : DataSourceType
  results : Option (List Row)
  columns : Option (List String)
  row_count : Option Nat
  error : Option String
  llm_used : String

/-- A datasource record as the router reads it (`user_id` compared against
the requester, `type` used for dispatch; connection details are only passed
through to the agents, which are oracle parameters here). -/
structure Datasource where
  user_id : String
  type : String
deriving DecidableEq

/-! ## LLM generation (`BaseAgent.generate_query` and `_clean_generated_query`) -/

/-- Truthiness of an optional Python string: `None` and `""` are falsy. -/
def pyFalsy : Option String → Bool
  | none => true
  | some s => decide (s = "")

/-- The backtick character (spelled by code point). -/
def isBacktick (c : Char) : Bool := c.toNat == 96

/-- `re.sub` deleting a leading markdown fence, pattern `^```[\w]*\n?`. -/
def stripFenceLead (q : List Char) : List Char :=
  match q with
  | c1 :: c2 :: c3 :: rest =>
    if isBacktick c1 && isBacktick c2 && isBacktick c3 then
      match rest.dropWhile isWordChar with
      | '\n' :: r2 => r2
      | r => r
    else q
  | _ => q

/-- Helper for the trailing-fence pattern, on the reversed text: drop a
final ```` ``` ```` and one newline just before it. -/
def dropTailFence (rq : List Char) : Option (List Char) :=
  match rq with
  | c1 :: c2 :: c3 :: rest =>
    if isBacktick c1 && isBacktick c2 && isBacktick c3 then
      some (match rest with
        | '\n' :: r2 => r2
        | r => r)
    else none
  | _ => none

/-- `re.sub` deleting a trailing markdown fence, pattern `\n?```$`: `$` matches at the end of the text or just
before a final newline. -/
def stripFenceTail (q : List Char) : List Char :=
  match dropTailFence q.reverse with
  | some r => r.reverse
  | none =>
    match q.reverse with
    | '\n' :: rest =>
      match dropTailFence rest with
      | some r => ('\n' :: r).reverse
      | none => q
    | _ => q

/-- The lower-cased label markers stripped from the front of generated text
(`SQL:`, `Query:`, `MongoDB Query:`, `Pandas Code:`). -/
def labelMarkers : List (List Char) :=
  ["sql:".data, "query:".data, "mongodb query:".data, "pandas code:".data]

/-- The label-stripping loop of `_clean_generated_query`: for each marker in
order, if the (lower-cased) text starts with it, cut it off and strip. -/
def removeLabels (q : List Char) : List Char :=
  labelMarkers.foldl
    (fun acc pre =>
      if pyLowerL (acc.take pre.length) = pre then pyStripL (acc.drop pre.length) else acc)
    q

/-- `BaseAgent._clean_generated_query`. -/
def cleanGeneratedL (q : List Char) : List Char :=
  removeLabels (pyStripL (stripFenceTail (stripFenceLead q)))

/-- `String` wrapper for `cleanGeneratedL`. -/
def cleanGenerated (q : String) : String := ⟨cleanGeneratedL q.data⟩

/-- The Groq-fallback tail of `BaseAgent.generate_query`: a truthy fallback
result is cleaned and tagged `"groq"`, otherwise `(None, "none")`. -/
def groqStep (groqRes : Option String) : Option String × String :=
  match groqRes with
  | some r => if r = "" then (none, "none") else (some (cleanGenerated r), "groq")
  | none => (none, "none")

/-- `BaseAgent.generate_query`, with the two LLM clients as oracles: the
primary health probe result, and the optional raw text each tier returns. -/
def generateQuery (health : Bool) (ollamaRes groqRes : Option String) :
    Option String × String :=
  match health, ollamaRes with
  | true, some r => if r = "" then groqStep groqRes else (some (cleanGenerated r), "ollama")
  | true, none => groqStep groqRes
  | false, _ => groqStep groqRes

/-! ## The shared pipeline (`BaseAgent.process`) -/

/-- `BaseAgent.process`: generate, then validate, then execute. The
validator may raise (the mongo one can), and `process` has no handler, so a raised
exception propagates. `execute_query` catches its own exceptions, so the
executor oracle is total, returning either the result dictionary or the
error string of a `(False, str(e))` pair. -/
def process (health : Bool) (ollamaRes groqRes : Option String)
    (validate : String → Except PyErr (Bool × String))
    (exec : String → Except String ExecData) : Except PyErr Outcome :=
  let gen := generateQuery health ollamaRes groqRes
  if pyFalsy gen.1 then
    .ok { success := false, generated_query := none, results := none, columns := none,
          row_count := none,
          error := some ("Failed to generate query from natural language"),
          llm_used := gen.2 }
  else
    let q := gen.1.getD ""
    match validate q with
    | .error e => .error e
    | .ok (ok, verr) =>
      if ok then
        match exec q with
        | .ok d =>
          .ok { success := true, generated_query := some q, results := some d.data,
                columns := some d.columns, row_count := some d.row_count, error := none,
                llm_used := gen.2 }
        | .error e =>
          .ok { success := false, generated_query := some q, results := none,
                columns := none, row_count := none, error := some e, llm_used := gen.2 }
      else
        .ok { success := false, generated_query := some q, results := none, columns := none,
              row_count := none, error := some ("Query validation failed: " ++ verr),
              llm_used := gen.2 }

/-! ## The router (`AIRouter.route_query`) -/

/-- `String` wrapper for `pyLowerL`. -/
def pyLowerS (s : String) : String := ⟨pyLowerL s.data⟩

/-- The keys of the `_agents` dispatch dictionary of the router. -/
def agentTypeKeys : List String :=
  ["mysql", "psql", "sql", "mongo", "mongodb", "pandas", "csv", "excel"]

/-- Whether `_get_agent` resolves the (lower-cased) datasource type instead
of raising `ValueError`. -/
def knownType (t : String) : Bool := agentTypeKeys.contains (pyLowerS t)

/-- `AIRouter._get_datasource_enum` (default `SQL`). -/
def dsEnum (t : String) : DataSourceType :=
  let tl := pyLowerS t
  if tl = "mysql" ∨ tl = "psql" ∨ tl = "sql" then .SQL
  else if tl = "mongo" ∨ tl = "mongodb" then .MONGO
  else if tl = "pandas" ∨ tl = "csv" ∨ tl = "excel" then .PANDAS
  else .SQL

/-- `AIRouter.route_query`, with the datasource registry lookup and the
dispatched agent `process` as oracles. Fails closed on a missing
datasource, on an ownership mismatch, and on an unknown type
(`ValueError` from `_get_agent`); converts any exception from the agent into
the catch-all internal-error response. -/
def routeQuery (naturalQuery : String) (lookup : Option Datasource) (userId : String)
    (agentProcess : Datasource → Except PyErr Outcome) : QueryResponse :=
  match lookup with
  | none =>
    { success := false, query := naturalQuery, generated_query := "",
      datasource_type := .SQL, results := none, columns := none, row_count := none,
      error := some ("Datasource not found"), llm_used := "none" }
  | some ds =>
    if ds.user_id ≠ userId then
      { success := false, query := naturalQuery, generated_query := "",
        datasource_type := .SQL, results := none, columns := none, row_count := none,
        error := some ("Access denied to this datasource"), llm_used := "none" }
    else if !knownType ds.type then
      { success := false, query := naturalQuery, generated_query := "",
        datasource_type := .SQL, results := none, columns := none, row_count := none,
        error := some ("Unsupported datasource type: " ++ ds.type), llm_used := "none" }
    else
      match agentProcess ds with
      | .error e =>
        { success := false, query := naturalQuery, generated_query := "",
          datasource_type := dsEnum ds.type, results := none, columns := none,
          row_count := none, error := some ("Internal error: " ++ pyErrStr e),
          llm_used := "none" }
      | .ok r =>
        { success := r.success, query := naturalQuery,
          generated_query := r.generated_query.getD "",
          datasource_type := dsEnum ds.type, results := r.results, columns := r.columns,
          row_count := r.row_count, error := r.error, llm_used := r.llm_used }

/-! ## C3: multiple relational statements are rejected -/

/-- C3: (a) every relational query splitting into at least two non-empty
`;`-separated statements fails validation; (b) for the concrete pipeline
input `"SELECT * FROM users; DROP TABLE users;"`, `process` returns the
validation-failure outcome (here due to the forbidden keyword `DROP`) for
every possible executor, so execution is never invoked. -/
theorem C3_multiple_statements_rejected :
    (∀ q : String,
      2 ≤ (sqlStatements q).length →
      (sqlValidateReadonly q).1 = false) ∧
    (∀ exec : String → Except String ExecData,
      process true (some ("SELECT * FROM users; DROP TABLE users;")) none
          (fun g => .ok (sqlValidateReadonly g)) exec =
        .ok { success := false,
              generated_query := some ("SELECT * FROM users; DROP TABLE users;"),
              results := none, columns := none, row_count := none,
              error := some ("Query validation failed: Forbidden keyword detected: DROP"),
              llm_used := "ollama" }) := by
  constructor
  · intro q h
    simp only [sqlValidateReadonly]
    split
    · rfl
    · rcases hf : List.find? (fun kw => containsKw kw.data (pyStripL (pyUpperL q.data)))
          FORBIDDEN_SQL_KEYWORDS with _ | kw'
      · rw [hf]
        have hg : (sqlStatements q).length > 1 := by omega
        rw [if_pos hg]
      · rw [hf]
  · intro exec
    rfl

/-- Witness for C3 at a concrete input with two non-empty statements. -/
theorem C3_multiple_statements_rejected_witness :
    (2 ≤ (sqlStatements ("SELECT 1; SELECT 2")).length) ∧
    (sqlValidateReadonly ("SELECT 1; SELECT 2")).1 = false :=
  ⟨by decide, C3_multiple_statements_rejected.1 ("SELECT 1; SELECT 2") (by decide)⟩

/-! ## Document agent validation (`MongoAgent.validate_readonly`) -/

/-- `FORBIDDEN_MONGO_OPERATIONS` of `mongo_agent.py`. -/
def FORBIDDEN_MONGO_OPERATIONS : List String :=
  ["insert", "insertone", "insertmany",
   "update", "updateone", "updatemany",
   "delete", "deleteone", "deletemany",
   "drop", "dropcollection", "dropdatabase",
   "create", "createcollection", "createindex",
   "remove", "save", "replace", "replaceone",
   "findoneandupdate", "findoneandreplace", "findoneanddelete",
   "bulkwrite", "rename"]

/-- A single or double quote. -/
def isQuote (c : Char) : Bool := c == '"' || c == '\x27'

/-- Tail matcher for `\s*[:(]`. -/
def wsThenColonParen (s : List Char) : Bool :=
  match s.dropWhile pyIsSpace with
  | c :: _ => c == ':' || c == '('
  | [] => false

/-- Tail matcher for an optional quote (double or single) followed by
`\s*[:(]` (regex alternation: either consume one quote first or not). -/
def afterOpTail (s : List Char) : Bool :=
  (match s with
   | c :: rest => isQuote c && wsThenColonParen rest
   | [] => false) || wsThenColonParen s

/-- Matcher at one position for the key/value-token pattern of the denylist
(the operation name wrapped in optional quotes and followed by `\s*[:(]`):
the leading optional quote never affects whether a match exists somewhere in
the subject, so the search is equivalent to searching for the operation name
followed by an optional quote and `\s*[:(]`. -/
def mongoKeyAt (op : List Char) (s : List Char) : Bool :=
  match dropLit op s with
  | some rest => afterOpTail rest
  | none => false

/-- Matcher at one position for the method-call pattern of the denylist:
a dot, the operation name, then `\s*\(`. -/
def mongoMethodAt (op : List Char) (s : List Char) : Bool :=
  match s with
  | '.' :: rest =>
    (match dropLit op rest with
     | some r =>
       (match r.dropWhile pyIsSpace with
        | c :: _ => c == '('
        | [] => false)
     | none => false)
  | _ => false

/-- `re.search` for a pattern with no word-boundary assertions: try the
matcher at every suffix. -/
def anySuffix (p : List Char → Bool) : List Char → Bool
  | [] => p []
  | c :: cs => p (c :: cs) || anySuffix p cs

/-- The key/value-token form of the denylist check. -/
def mongoKeySearch (op : String) (s : List Char) : Bool := anySuffix (mongoKeyAt op.data) s

/-- The method-call form of the denylist check. -/
def mongoMethodSearch (op : String) (s : List Char) : Bool := anySuffix (mongoMethodAt op.data) s

/-- The allowed declared operations for JSON document queries. -/
def MONGO_ALLOWED_OPERATIONS : List String := ["find", "aggregate", "count", "distinct"]

/-- Python `dict.get` on the dictionary produced by `json.loads`: for
duplicate keys the last occurrence wins. -/
def jsonGet (k : String) (fields : List (String × JVal)) : Option JVal :=
  (fields.reverse.find? (fun p => p.1 = k)).map (fun p => p.2)

/-- The Python type name of a parsed JSON value, as it appears in
`AttributeError` messages. -/
def jvalTypeName : JVal → String
  | .str _ => "str"
  | .num _ => "int"
  | .boolVal _ => "bool"
  | .null => "NoneType"
  | .arr _ => "list"
  | .obj _ => "dict"

/-- `str(AttributeError)` text for a missing attribute. -/
def noAttrMsg (t attr : String) : String :=
  "\x27" ++ t ++ "\x27 object has no attribute \x27" ++ attr ++ "\x27"

/-- `MongoAgent.validate_readonly`, with `json.loads(text)` supplied as an
oracle (`none` models `JSONDecodeError`, which the code catches and
ignores). The textual denylist runs first on the lower-cased text; if the
text parsed as JSON, `query_json.get("operation", "").lower()` raises
`AttributeError` when the parsed value is not a dict (no `.get`) or when the
`operation` value is not a string (no `.lower`); otherwise the declared
operation must be one of find/aggregate/count/distinct. -/
def mongoValidateReadonly (text : String) (parsed : Option JVal) :
    Except PyErr (Bool × String) :=
  let lower := pyLowerL text.data
  match FORBIDDEN_MONGO_OPERATIONS.find?
      (fun op => mongoKeySearch op lower || mongoMethodSearch op lower) with
  | some op =>
    if mongoKeySearch op lower then .ok (false, "Forbidden operation detected: " ++ op)
    else .ok (false, "Forbidden method detected: " ++ op)
  | none =>
    match parsed with
    | none => .ok (true, "")
    | some (.obj fields) =>
      match jsonGet ("operation") fields with
      | none =>
        .ok (false, "Only find, aggregate, count, and distinct operations are allowed")
      | some (.str s) =>
        if MONGO_ALLOWED_OPERATIONS.contains (pyLowerS s) then .ok (true, "")
        else .ok (false, "Only find, aggregate, count, and distinct operations are allowed")
      | some v => .error (.attributeError (noAttrMsg (jvalTypeName v) ("lower")))
    | some v => .error (.attributeError (noAttrMsg (jvalTypeName v) ("get")))

example : mongoValidateReadonly ("db.users.insertOne(\x7bname: 1\x7d)") none =
    .ok (false, "Forbidden operation detected: insertone") := rfl
example : mongoValidateReadonly ("\x7b\x22operation\x22: \x22find\x22, \x22filter\x22: \x7b\x7d\x7d")
    (some (.obj [(("operation"), .str ("find")), (("filter"), .obj [])])) = .ok (true, "") := rfl

/-- C4: for a document query whose text parses as a JSON object, if the
declared `operation` field is missing, or is a string that (case-folded) is
not one of find/aggregate/count/distinct, `MongoAgent.validate_readonly`
returns a failing verdict (either from the textual denylist or from the
operation allowlist). -/
theorem C4_mongo_operation_allowlist (text : String) (fields : List (String × JVal))
    (h : jsonGet ("operation") fields = none ∨
      ∃ s, jsonGet ("operation") fields = some (.str s) ∧
        MONGO_ALLOWED_OPERATIONS.contains (pyLowerS s) = false) :
    ∃ r, mongoValidateReadonly text (some (.obj fields)) = .ok (false, r) := by
  simp only [mongoValidateReadonly]
  rcases hf : FORBIDDEN_MONGO_OPERATIONS.find?
      (fun op => mongoKeySearch op (pyLowerL text.data) ||
        mongoMethodSearch op (pyLowerL text.data)) with _ | op
  · rcases h with h | ⟨s, hs, hns⟩
    · exact ⟨"Only find, aggregate, count, and distinct operations are allowed", by simp [h]⟩
    · have hns' : pyLowerS s ∉ MONGO_ALLOWED_OPERATIONS := by simpa using hns
      exact ⟨"Only find, aggregate, count, and distinct operations are allowed",
        by simp [hs, hns']⟩
  · by_cases hk : mongoKeySearch op (pyLowerL text.data) = true
    · exact ⟨"Forbidden operation detected: " ++ op, by simp [hk]⟩
    · exact ⟨"Forbidden method detected: " ++ op, by simp [hk]⟩

/-- Witness for C4 at a concrete input: a JSON object declaring the unknown
operation `"foo"`. -/
theorem C4_mongo_operation_allowlist_witness :
    (jsonGet ("operation") [(("operation"), JVal.str ("foo"))] = some (JVal.str ("foo")) ∧
      MONGO_ALLOWED_OPERATIONS.contains (pyLowerS ("foo")) = false) ∧
    ∃ r, mongoValidateReadonly ("\x7b\x22operation\x22: \x22foo\x22\x7d")
        (some (.obj [(("operation"), JVal.str ("foo"))])) = .ok (false, r) :=
  ⟨⟨rfl, by decide⟩,
    C4_mongo_operation_allowlist ("\x7b\x22operation\x22: \x22foo\x22\x7d")
      [(("operation"), JVal.str ("foo"))] (Or.inr ⟨("foo"), rfl, by decide⟩)⟩

/-- C10: on text that parses as JSON but not as a JSON object — here
`"[1, 2]"`, whose parse is a list — `MongoAgent.validate_readonly` raises
`AttributeError` (the parsed list has no `.get`) instead of returning a
verdict, and through the pipeline this surfaces as the router catch-all
internal-error outcome, for every executor. -/
theorem C10_mongo_validate_raises_on_nonobject_json :
    (mongoValidateReadonly ("[1, 2]") (some (.arr [.num 1, .num 2])) =
      .error (.attributeError (noAttrMsg ("list") ("get")))) ∧
    (∀ exec : String → Except String ExecData,
      routeQuery ("list the first two items") (some (Datasource.mk ("userA") ("mongo")))
        ("userA")
        (fun _ => process true (some ("[1, 2]")) none
          (fun g => mongoValidateReadonly g
            (if g = "[1, 2]" then some (.arr [.num 1, .num 2]) else none)) exec) =
      { success := false, query := ("list the first two items"), generated_query := "",
        datasource_type := .MONGO, results := none, columns := none, row_count := none,
        error := some ("Internal error: " ++ noAttrMsg ("list") ("get")),
        llm_used := "none" }) :=
  ⟨rfl, fun _ => rfl⟩

/-! ## Tabular agent validation (`PandasAgent.validate_readonly`)

All patterns are searched with `re.IGNORECASE`, modelled by matching the
lower-cased pattern literals against the lower-cased subject. -/

/-- Tail matcher for `\s*c`. -/
def wsThenChar (c : Char) (s : List Char) : Bool :=
  match s.dropWhile pyIsSpace with
  | x :: _ => x == c
  | [] => false

/-- Matcher at one position for `\.name\s*\(`. -/
def dotCallAt (name : List Char) (s : List Char) : Bool :=
  match s with
  | '.' :: rest =>
    (match dropLit name rest with
     | some r => wsThenChar '(' r
     | none => false)
  | _ => false

/-- Matcher at one position for `\bname\s*\(` (the boundary flag `b` is true
when the previous character is absent or not a word character). -/
def bcallAt (name : List Char) (b : Bool) (s : List Char) : Bool :=
  b && (match dropLit name s with
    | some r => wsThenChar '(' r
    | none => false)

/-- Matcher at one position for `\bimport\s+`. -/
def importAt (b : Bool) (s : List Char) : Bool :=
  b && (match dropLit ("import".data) s with
    | some (c :: _) => pyIsSpace c
    | _ => false)

/-- Matcher at one position for `\bfrom\s+\w+\s+import`. -/
def fromImportAt (b : Bool) (s : List Char) : Bool :=
  b && (match dropLit ("from".data) s with
    | some (c1 :: r1) =>
      pyIsSpace c1 &&
        (match r1.dropWhile pyIsSpace with
         | c2 :: r3 =>
           isWordChar c2 &&
             (match r3.dropWhile isWordChar with
              | c3 :: r5 =>
                pyIsSpace c3 && (dropLit ("import".data) (r5.dropWhile pyIsSpace)).isSome
              | [] => false)
         | [] => false)
    | _ => false)

/-- Whether the maximal word-character run ends with two underscores. -/
def endsWithUU (m : List Char) : Bool :=
  match m.reverse with
  | '_' :: '_' :: _ => true
  | _ => false

/-- Matcher at one position for `\b__\w+__\b`: after the leading `__`, the
maximal word-character run must have length at least 3 (a non-empty `\w+`
plus the closing `__`) and end with `__`; maximality of the run gives the
trailing word boundary. -/
def dunderAt (b : Bool) (s : List Char) : Bool :=
  b && (match dropLit ("__".data) s with
    | some r =>
      let m := r.takeWhile isWordChar
      decide (3 ≤ m.length) && endsWithUU m
    | none => false)

/-- Matcher at one position for `\bname\.` (module-access patterns). -/
def modDotAt (name : List Char) (b : Bool) (s : List Char) : Bool :=
  b && (match dropLit name s with
    | some ('.' :: _) => true
    | _ => false)

/-- Matcher for `inplace\s*=\s*true` at the current position. -/
def inplaceEqTrueAt (s : List Char) : Bool :=
  match dropLit ("inplace".data) s with
  | some r =>
    (match r.dropWhile pyIsSpace with
     | '=' :: r2 => (dropLit ("true".data) (r2.dropWhile pyIsSpace)).isSome
     | _ => false)
  | none => false

/-- Scanner for `[^)]*inplace\s*=\s*true`: advance over non-`)` characters
looking for the `inplace` assignment. -/
def scanNoParen : List Char → Bool
  | [] => false
  | c :: cs => inplaceEqTrueAt (c :: cs) || (decide (c ≠ ')') && scanNoParen cs)

/-- Matcher at one position for `\.name\s*\([^)]*inplace\s*=\s*true`. -/
def inplaceCallAt (name : List Char) (s : List Char) : Bool :=
  match s with
  | '.' :: rest =>
    (match dropLit name rest with
     | some r =>
       (match r.dropWhile pyIsSpace with
        | '(' :: r2 => scanNoParen r2
        | _ => false)
     | none => false)
  | _ => false

/-- Matcher at one position for `\bdel\s+`. -/
def delAt (b : Bool) (s : List Char) : Bool :=
  b && (match dropLit ("del".data) s with
    | some (c :: _) => pyIsSpace c
    | _ => false)

/-- Scanner for `.*\]\s*=` where `.` excludes newlines: at each position
either close with `]` followed by `\s*=`, or consume one non-newline
character. -/
def sliceCloseScan : List Char → Bool
  | [] => false
  | c :: cs => (c == ']' && wsThenChar '=' cs) || (decide (c ≠ '\n') && sliceCloseScan cs)

/-- Matcher at one position for `\[.*\]\s*=`. -/
def sliceAssignAt (s : List Char) : Bool :=
  match s with
  | '[' :: rest => sliceCloseScan rest
  | _ => false

/-- `re.search` with word-boundary tracking: try the matcher at every
suffix, passing whether the previous character (if any) is not a word
character. -/
def bSearch (p : Bool → List Char → Bool) : Bool → List Char → Bool
  | b, [] => p b []
  | b, c :: cs => p b (c :: cs) || bSearch p (!isWordChar c) cs

/-- Search from the start of the subject (start counts as a boundary). -/
def reSearchB (p : Bool → List Char → Bool) (s : List Char) : Bool := bSearch p true s

/-- Search for a matcher that ignores the boundary flag. -/
def reSearchP (p : List Char → Bool) (s : List Char) : Bool := reSearchB (fun _ t => p t) s

/-- `FORBIDDEN_PATTERNS` of `pandas_agent.py`: each entry pairs the raw
regex source (used in the rejection message) with its matcher over the
lower-cased subject. -/
def FORBIDDEN_PATTERNS : List (String × (List Char → Bool)) :=
  [("\\.to_sql\\s*\\(", reSearchP (dotCallAt ("to_sql".data))),
   ("\\.to_csv\\s*\\(", reSearchP (dotCallAt ("to_csv".data))),
   ("\\.to_excel\\s*\\(", reSearchP (dotCallAt ("to_excel".data))),
   ("\\.to_json\\s*\\(", reSearchP (dotCallAt ("to_json".data))),
   ("\\.to_pickle\\s*\\(", reSearchP (dotCallAt ("to_pickle".data))),
   ("\\.to_parquet\\s*\\(", reSearchP (dotCallAt ("to_parquet".data))),
   ("\\.to_hdf\\s*\\(", reSearchP (dotCallAt ("to_hdf".data))),
   ("\\.to_feather\\s*\\(", reSearchP (dotCallAt ("to_feather".data))),
   ("\\bopen\\s*\\(", reSearchB (bcallAt ("open".data))),
   ("\\bexec\\s*\\(", reSearchB (bcallAt ("exec".data))),
   ("\\beval\\s*\\(", reSearchB (bcallAt ("eval".data))),
   ("\\bimport\\s+", reSearchB importAt),
   ("\\bfrom\\s+\\w+\\s+import", reSearchB fromImportAt),
   ("\\b__\\w+__\\b", reSearchB dunderAt),
   ("\\bos\\.", reSearchB (modDotAt ("os".data))),
   ("\\bsys\\.", reSearchB (modDotAt ("sys".data))),
   ("\\bsubprocess\\.", reSearchB (modDotAt ("subprocess".data))),
   ("\\bshutil\\.", reSearchB (modDotAt ("shutil".data))),
   ("\\brequests\\.", reSearchB (modDotAt ("requests".data))),
   ("\\burllib\\.", reSearchB (modDotAt ("urllib".data))),
   ("\\.drop\\s*\\(", reSearchP (dotCallAt ("drop".data))),
   ("\\.drop_duplicates\\s*\\([^)]*inplace\\s*=\\s*True",
     reSearchP (inplaceCallAt ("drop_duplicates".data))),
   ("\\.fillna\\s*\\([^)]*inplace\\s*=\\s*True", reSearchP (inplaceCallAt ("fillna".data))),
   ("\\.replace\\s*\\([^)]*inplace\\s*=\\s*True", reSearchP (inplaceCallAt ("replace".data))),
   ("\\.rename\\s*\\([^)]*inplace\\s*=\\s*True", reSearchP (inplaceCallAt ("rename".data))),
   ("\\.reset_index\\s*\\([^)]*inplace\\s*=\\s*True",
     reSearchP (inplaceCallAt ("reset_index".data))),
   ("\\.set_index\\s*\\([^)]*inplace\\s*=\\s*True",
     reSearchP (inplaceCallAt ("set_index".data))),
   ("\\.sort_values\\s*\\([^)]*inplace\\s*=\\s*True",
     reSearchP (inplaceCallAt ("sort_values".data))),
   ("\\.sort_index\\s*\\([^)]*inplace\\s*=\\s*True",
     reSearchP (inplaceCallAt ("sort_index".data))),
   ("\\bdel\\s+", reSearchB delAt),
   ("\\.pop\\s*\\(", reSearchP (dotCallAt ("pop".data))),
   ("\\.insert\\s*\\(", reSearchP (dotCallAt ("insert".data))),
   ("\\[.*\\]\\s*=", reSearchP sliceAssignAt)]

/-- Matcher at one position for `^df\s*=` (after an `^` anchor). -/
def dfAssignAt (s : List Char) : Bool :=
  match dropLit ("df".data) s with
  | some r => wsThenChar '=' r
  | none => false

/-- Matcher at one position for `^df\s*=\s*df\.`. -/
def dfDfAssignAt (s : List Char) : Bool :=
  match dropLit ("df".data) s with
  | some r =>
    (match r.dropWhile pyIsSpace with
     | '=' :: r2 =>
       (match dropLit ("df".data) (r2.dropWhile pyIsSpace) with
        | some ('.' :: _) => true
        | _ => false)
     | _ => false)
  | none => false

/-- Positions after a newline, for `re.MULTILINE` `^` anchors. -/
def mlTail (p : List Char → Bool) : List Char → Bool
  | [] => false
  | c :: cs => (c == '\n' && p cs) || mlTail p cs

/-- `re.search` with `re.MULTILINE` for a `^`-anchored pattern: match at the
start of the text or immediately after any newline. -/
def mlSearch (p : List Char → Bool) (s : List Char) : Bool := p s || mlTail p s

/-- `PandasAgent.validate_readonly`, with `ast.parse(text)` supplied as an
oracle (`none` models a successful parse, `some e` a `SyntaxError` with
message `e`): reject on any forbidden pattern, then on a syntax error, then
on a direct `df = …` reassignment that is not of the form `df = df.…`. -/
def pandasValidateReadonly (text : String) (astParse : Option String) : Bool × String :=
  let lower := pyLowerL text.data
  match FORBIDDEN_PATTERNS.find? (fun pm => pm.2 lower) with
  | some pm => (false, "Forbidden pattern detected: " ++ pm.1)
  | none =>
    match astParse with
    | some e => (false, "Invalid Python syntax: " ++ e)
    | none =>
      if mlSearch dfAssignAt text.data && !mlSearch dfDfAssignAt text.data then
        (false, "Direct DataFrame reassignment not allowed")
      else (true, "")

example : (pandasValidateReadonly ("df.groupby(\x27a\x27).sum()") none).1 = true := rfl
example : pandasValidateReadonly ("df.to_csv(\x27x.csv\x27)") none =
    (false, "Forbidden pattern detected: \\.to_csv\\s*\\(") := rfl
example : (pandasValidateReadonly ("import os") none).1 = false := rfl
example : (pandasValidateReadonly ("df.fillna(0, inplace=True)") none).1 = false := rfl
example : (pandasValidateReadonly ("df[\x27a\x27] = 1") none).1 = false := rfl
example : (pandasValidateReadonly ("df = 5") none).1 = false := rfl
example : (pandasValidateReadonly ("df = df.head()") none).1 = true := rfl

/-- C5: (a) every tabular snippet on which one of the denylisted capability
patterns matches (over the lower-cased text, as `re.IGNORECASE` does) is
rejected by `PandasAgent.validate_readonly`, whatever the syntax-check
oracle says; (b) for the concrete pipeline scenario snippet writing a CSV,
`process` returns the validation-failure outcome for every syntax oracle and
every executor, so execution is never invoked. -/
theorem C5_pandas_denylist_rejects :
    (∀ (text : String) (pm : String × (List Char → Bool)) (astParse : Option String),
      pm ∈ FORBIDDEN_PATTERNS → pm.2 (pyLowerL text.data) = true →
      (pandasValidateReadonly text astParse).1 = false) ∧
    (∀ (astOracle : String → Option String) (exec : String → Except String ExecData),
      process true (some ("df.to_csv(\x27x.csv\x27)")) none
          (fun g => .ok (pandasValidateReadonly g (astOracle g))) exec =
        .ok { success := false, generated_query := some ("df.to_csv(\x27x.csv\x27)"),
              results := none, columns := none, row_count := none,
              error := some
                ("Query validation failed: Forbidden pattern detected: \\.to_csv\\s*\\("),
              llm_used := "ollama" }) := by
  constructor
  · intro text pm astParse hmem hmatch
    simp only [pandasValidateReadonly]
    rcases hf : FORBIDDEN_PATTERNS.find? (fun pm2 => pm2.2 (pyLowerL text.data)) with _ | pm'
    · exact absurd hmatch (by simpa using List.find?_eq_none.mp hf pm hmem)
    · rw [hf]
  · intro astOracle exec
    rfl

/-- Witness for C5: the `to_csv` pattern entry matches the scenario snippet
and validation rejects it. -/
theorem C5_pandas_denylist_rejects_witness :
    (("\\.to_csv\\s*\\(", reSearchP (dotCallAt ("to_csv".data))) ∈ FORBIDDEN_PATTERNS ∧
      reSearchP (dotCallAt ("to_csv".data)) (pyLowerL ("df.to_csv(\x27x.csv\x27)").data) = true) ∧
    (pandasValidateReadonly ("df.to_csv(\x27x.csv\x27)") none).1 = false :=
  ⟨⟨by
      unfold FORBIDDEN_PATTERNS
      exact List.mem_cons_of_mem _ (List.mem_cons_self _ _),
    rfl⟩,
    C5_pandas_denylist_rejects.1 ("df.to_csv(\x27x.csv\x27)")
      (("\\.to_csv\\s*\\(", reSearchP (dotCallAt ("to_csv".data)))) none
      (by
        unfold FORBIDDEN_PATTERNS
        exact List.mem_cons_of_mem _ (List.mem_cons_self _ _))
      rfl⟩

/-! ## Execution and result normalization

The backend drivers (SQLAlchemy cursor, pymongo cursor, the pandas
evaluation result) are oracles: the embedded functions receive the raw
result produced by the backend and perform exactly the normalization the
source performs. The value-level serialization fix-ups (`isoformat`, byte
decoding, numpy `.item()`) are value-preserving re-encodings and are
modelled as the identity on `JVal`. -/

/-- Python `dict` update semantics: an existing key keeps its position and
gets the new value, a new key is appended. -/
def dictUpdate (d : Row) (k : String) (v : JVal) : Row :=
  if d.any (fun p => p.1 == k) then d.map (fun p => if p.1 == k then (k, v) else p)
  else d ++ [(k, v)]

/-- `dict(pairs)` for a Python pair list (last value wins, first position
kept). -/
def dictOfPairs (ps : List (String × JVal)) : Row :=
  ps.foldl (fun d p => dictUpdate d p.1 p.2) []

/-- `SQLAgent.execute_query` on a successful backend response: the cursor
column names and all fetched rows (`fetchall` — the full result set). Each
row becomes `dict(zip(columns, row))` and `row_count` is the length of the
converted data. -/
def sqlExecute (columns : List String) (rows : List (List JVal)) : ExecData :=
  let data := rows.map (fun r => dictOfPairs (columns.zip r))
  { data := data, columns := columns, row_count := data.length }

/-- The result normalization shared by every `MongoAgent.execute_query`
operation: serialize the documents, take the column list from the first
document (empty if none), and report the number of documents. -/
def mongoNormalize (results : List Row) : ExecData :=
  { data := results,
    columns := match results with
      | [] => []
      | r :: _ => r.map Prod.fst,
    row_count := results.length }

/-- The `find` branch of `MongoAgent.execute_query`: the limit applied to
the cursor is the one the generated query requested
(`query_obj.get("limit", 100)`), with `100` substituted only when the field
is absent or falsy (`limit if limit else 100`). `docs` is the filtered,
sorted document stream the backend would deliver. -/
def mongoExecuteFind (docs : List Row) (queryLimit : Option Nat) : ExecData :=
  let eff := match queryLimit with
    | none => 100
    | some 0 => 100
    | some n => n
  mongoNormalize (docs.take eff)

/-- The shapes `PandasAgent.execute_query` distinguishes for the evaluation
result: a DataFrame (columns plus aligned cell rows), a Series (`to_frame`
uses the series name as the column key, or the integer label `0` — encoded
here as the string `"0"` — when unnamed), a scalar, a dict, a list whose
first element is a dict, any other list, and a fallback stringified value. -/
inductive PdRes where
  | frame (cols : List String) (rows : List (List JVal))
  | series (name : Option String) (values : List JVal)
  | scalar (v : JVal)
  | dictRes (d : Row)
  | listDicts (ds : List Row)
  | listVals (xs : List JVal)
  | other (text : String)

/-- `result.name or "value"` (falsy names — `None` or `""` — become
`"value"`). -/
def seriesColumnLabel (name : Option String) : String :=
  match name with
  | some n => if n = "" then "value" else n
  | none => "value"

/-- The column key `to_frame()` uses for the records of a Series. -/
def seriesFrameKey (name : Option String) : String :=
  match name with
  | some n => n
  | none => "0"

/-- `PandasAgent.execute_query` result conversion: DataFrame/Series/list
data is truncated to the first 1000 rows, while `row_count` reports the
untruncated length; scalars, dicts and other values become a single row. -/
def pandasExecute : PdRes → ExecData
  | .frame cols rows =>
    { data := (rows.take 1000).map (fun r => dictOfPairs (cols.zip r)),
      columns := cols, row_count := rows.length }
  | .series name vals =>
    { data := (vals.take 1000).map (fun v => [(seriesFrameKey name, v)]),
      columns := [seriesColumnLabel name], row_count := vals.length }
  | .scalar v => { data := [[(("result"), v)]], columns := ["result"], row_count := 1 }
  | .dictRes d => { data := [d], columns := d.map Prod.fst, row_count := 1 }
  | .listDicts ds =>
    { data := ds.take 1000,
      columns := match ds with
        | d :: _ => d.map Prod.fst
        | [] => [],
      row_count := ds.length }
  | .listVals xs =>
    { data := (xs.take 1000).map (fun v => [(("value"), v)]),
      columns := ["value"], row_count := xs.length }
  | .other t => { data := [[(("result"), .str t)]], columns := ["result"], row_count := 1 }

/-- C2 (code evaluation at the failing input): the relational executor
applies no result-size cap at all — a 1001-row backend result is returned
in full — and the `find` limit of the document executor obeys the query: a
query-requested limit of 2000 returns all 1500 matching documents. No fixed
hard cap bounds the returned row sequence independently of the query. -/
theorem C2_no_hard_result_cap :
    (sqlExecute [("a")] (List.replicate 1001 [JVal.num 0])).data.length = 1001 ∧
    (sqlExecute [("a")] (List.replicate 1001 [JVal.num 0])).row_count = 1001 ∧
    (mongoExecuteFind (List.replicate 1500 [(("a"), JVal.num 0)]) (some 2000)).row_count
      = 1500 := by
  refine ⟨?_, ?_, ?_⟩
  · simp only [sqlExecute, List.length_map, List.length_replicate]
  · simp only [sqlExecute, List.length_map, List.length_replicate]
  · simp only [mongoExecuteFind, mongoNormalize, List.length_take, List.length_replicate]
    omega

/-- C9 (counterexample): the claim "the reported row count equals the
length of the normalized row sequence, and the column list is empty when
the row sequence is empty" fails on the tabular backend — a 1001-row
DataFrame result reports `row_count = 1001` while only 1000 rows are
returned — and on the relational column list — a zero-row result
keeps the cursor column list. -/
theorem C9_rowcount_counterexample :
    (pandasExecute (.frame [("a")] (List.replicate 1001 [JVal.num 0]))).row_count = 1001 ∧
    (pandasExecute (.frame [("a")] (List.replicate 1001 [JVal.num 0]))).data.length = 1000 ∧
    (1000 : Nat) ≠ 1001 ∧
    (sqlExecute [("a")] []).data = [] ∧
    (sqlExecute [("a")] []).columns = [("a")] := by
  refine ⟨?_, ?_, by decide, rfl, rfl⟩
  · simp only [pandasExecute, List.length_replicate]
  · simp only [pandasExecute, List.length_map, List.length_take, List.length_replicate]
    omega

/-- C9 (amended): the relational and document executors always report
`row_count` equal to the length of the returned data, and the document
executor derives its column list from the first returned row (empty when
there are none); the tabular executor truncates the returned data to 1000
rows while reporting the untruncated count, so the data length is the
minimum of `row_count` and 1000; the relational and tabular column lists
come from the backend result, not from the returned rows. -/
theorem C9_amended_rowcount_normalization :
    (∀ (cols : List String) (rows : List (List JVal)),
      (sqlExecute cols rows).row_count = (sqlExecute cols rows).data.length ∧
      (sqlExecute cols rows).columns = cols) ∧
    (∀ docs : List Row,
      (mongoNormalize docs).row_count = (mongoNormalize docs).data.length ∧
      (mongoNormalize docs).columns =
        (match (mongoNormalize docs).data with
          | [] => ([] : List String)
          | r :: _ => r.map Prod.fst)) ∧
    (∀ res : PdRes,
      (pandasExecute res).data.length = min (pandasExecute res).row_count 1000) := by
  refine ⟨fun cols rows => ⟨rfl, rfl⟩, fun docs => ⟨rfl, rfl⟩, fun res => ?_⟩
  cases res <;>
    simp [pandasExecute, List.length_take, Nat.min_comm]

/-! ## Router-level claims -/

lemma groqStep_falsy {groq : Option String} (h : pyFalsy groq = true) :
    groqStep groq = (none, "none") := by
  cases groq with
  | none => rfl
  | some s =>
    have hs : s = "" := of_decide_eq_true h
    subst hs
    rfl

lemma generateQuery_falsy {health : Bool} {oll groq : Option String}
    (h1 : pyFalsy oll = true) (h2 : pyFalsy groq = true) :
    generateQuery health oll groq = (none, "none") := by
  cases health with
  | false => exact groqStep_falsy h2
  | true =>
    cases oll with
    | none => exact groqStep_falsy h2
    | some s =>
      have hs : s = "" := of_decide_eq_true h1
      subst hs
      simp only [generateQuery, if_pos rfl]
      exact groqStep_falsy h2

/-- When both tiers produce empty or no content, `process` returns the
generation-failure outcome without consulting the validator or the
executor. -/
lemma process_gen_failure {health : Bool} {oll groq : Option String}
    {validate : String → Except PyErr (Bool × String)}
    {exec : String → Except String ExecData}
    (h1 : pyFalsy oll = true) (h2 : pyFalsy groq = true) :
    process health oll groq validate exec =
      .ok { success := false, generated_query := none, results := none, columns := none,
            row_count := none,
            error := some ("Failed to generate query from natural language"),
            llm_used := "none" } := by
  simp only [process, generateQuery_falsy h1 h2]
  rfl

/-- C8: if both language-model tiers return empty or no content, the routed
outcome has `success = false`, the generation-failure error, and an empty
`generated_query`, for every validator and executor (neither is invoked). -/
theorem C8_generation_failure_outcome (nq userId : String) (ds : Datasource) (health : Bool)
    (oll groq : Option String) (validate : String → Except PyErr (Bool × String))
    (exec : String → Except String ExecData)
    (h1 : pyFalsy oll = true) (h2 : pyFalsy groq = true)
    (hown : ds.user_id = userId) (hkt : knownType ds.type = true) :
    routeQuery nq (some ds) userId (fun _ => process health oll groq validate exec) =
      { success := false, query := nq, generated_query := "",
        datasource_type := dsEnum ds.type, results := none, columns := none,
        row_count := none,
        error := some ("Failed to generate query from natural language"),
        llm_used := "none" } := by
  simp only [routeQuery]
  rw [if_neg (by simp [hown]), if_neg (by simp [hkt]), process_gen_failure h1 h2]
  rfl

/-- Witness for C8: both tiers empty (primary unhealthy, fallback returns
`""`) on an owned, known-type datasource. -/
theorem C8_generation_failure_outcome_witness :
    (pyFalsy none = true ∧ pyFalsy (some "") = true ∧
      (Datasource.mk ("u1") ("mysql")).user_id = ("u1") ∧
      knownType (Datasource.mk ("u1") ("mysql")).type = true) ∧
    routeQuery ("count the users") (some (Datasource.mk ("u1") ("mysql"))) ("u1")
        (fun _ => process false none (some "")
          (fun _ => .ok (true, ""))
          (fun _ => .ok { data := [], columns := [], row_count := 0 })) =
      { success := false, query := ("count the users"), generated_query := "",
        datasource_type := dsEnum (Datasource.mk ("u1") ("mysql")).type, results := none,
        columns := none, row_count := none,
        error := some ("Failed to generate query from natural language"),
        llm_used := "none" } :=
  ⟨⟨rfl, rfl, rfl, rfl⟩,
    C8_generation_failure_outcome ("count the users") ("u1")
      (Datasource.mk ("u1") ("mysql")) false none (some "")
      (fun _ => .ok (true, ""))
      (fun _ => .ok { data := [], columns := [], row_count := 0 }) rfl rfl rfl rfl⟩

/-- C7: an ownership mismatch yields the access-denied response and a
missing datasource yields the not-found response, in both cases for every
possible agent behaviour — no agent is invoked. -/
theorem C7_router_access_control (nq userId : String) (ds : Datasource)
    (hown : ds.user_id ≠ userId) :
    (∀ ap : Datasource → Except PyErr Outcome,
      routeQuery nq (some ds) userId ap =
        { success := false, query := nq, generated_query := "", datasource_type := .SQL,
          results := none, columns := none, row_count := none,
          error := some ("Access denied to this datasource"), llm_used := "none" }) ∧
    (∀ ap : Datasource → Except PyErr Outcome,
      routeQuery nq none userId ap =
        { success := false, query := nq, generated_query := "", datasource_type := .SQL,
          results := none, columns := none, row_count := none,
          error := some ("Datasource not found"), llm_used := "none" }) := by
  constructor
  · intro ap
    simp only [routeQuery]
    rw [if_pos hown]
  · intro ap
    rfl

/-- Witness for C7: requester `userA` against a datasource owned by
`userB`, with an agent that would succeed if it were ever consulted. -/
theorem C7_router_access_control_witness :
    ((Datasource.mk ("userB") ("mysql")).user_id ≠ ("userA")) ∧
    routeQuery ("show sales") (some (Datasource.mk ("userB") ("mysql"))) ("userA")
        (fun _ => .ok { success := true, generated_query := some ("SELECT 1"),
                        results := some [], columns := some [], row_count := some 0,
                        error := none, llm_used := "ollama" }) =
      { success := false, query := ("show sales"), generated_query := "",
        datasource_type := .SQL, results := none, columns := none, row_count := none,
        error := some ("Access denied to this datasource"), llm_used := "none" } :=
  ⟨by decide,
    (C7_router_access_control ("show sales") ("userA") (Datasource.mk ("userB") ("mysql"))
      (by decide)).1 _⟩

/-- Internal consistency of a routed response: success comes with full
result data and no error; failure comes with an error and no result data. -/
def outcomeConsistent (r : QueryResponse) : Prop :=
  (r.success = true → r.results.isSome = true ∧ r.columns.isSome = true ∧
    r.row_count.isSome = true ∧ r.error = none) ∧
  (r.success = false → r.error.isSome = true ∧ r.results = none ∧ r.columns = none ∧
    r.row_count = none)

/-- Every outcome dictionary `BaseAgent.process` returns is internally
consistent. -/
lemma process_ok_fields {health : Bool} {oll groq : Option String}
    {validate : String → Except PyErr (Bool × String)}
    {exec : String → Except String ExecData} {r : Outcome}
    (h : process health oll groq validate exec = Except.ok r) :
    (r.success = true → r.results.isSome = true ∧ r.columns.isSome = true ∧
      r.row_count.isSome = true ∧ r.error = none) ∧
    (r.success = false → r.error.isSome = true ∧ r.results = none ∧ r.columns = none ∧
      r.row_count = none) := by
  simp only [process] at h
  split at h
  · rw [Except.ok.injEq] at h
    subst h
    exact ⟨fun hs => Bool.noConfusion hs, fun _ => ⟨rfl, rfl, rfl, rfl⟩⟩
  · split at h
    · exact Except.noConfusion h
    · split at h
      · split at h
        · rw [Except.ok.injEq] at h
          subst h
          exact ⟨fun _ => ⟨rfl, rfl, rfl, rfl⟩, fun hs => Bool.noConfusion hs⟩
        · rw [Except.ok.injEq] at h
          subst h
          exact ⟨fun hs => Bool.noConfusion hs, fun _ => ⟨rfl, rfl, rfl, rfl⟩⟩
      · rw [Except.ok.injEq] at h
        subst h
        exact ⟨fun hs => Bool.noConfusion hs, fun _ => ⟨rfl, rfl, rfl, rfl⟩⟩

/-- C6: every `QueryResponse` produced by routing a query through the
shared pipeline is internally consistent, whatever the registry lookup, the
LLM oracles, the validator and the executor do. -/
theorem C6_outcome_consistency (nq userId : String) (lookup : Option Datasource)
    (health : Bool) (oll groq : Option String)
    (validate : String → Except PyErr (Bool × String))
    (exec : String → Except String ExecData) :
    outcomeConsistent
      (routeQuery nq lookup userId (fun _ => process health oll groq validate exec)) := by
  cases lookup with
  | none => exact ⟨fun hs => Bool.noConfusion hs, fun _ => ⟨rfl, rfl, rfl, rfl⟩⟩
  | some ds =>
    simp only [routeQuery]
    split
    · exact ⟨fun hs => Bool.noConfusion hs, fun _ => ⟨rfl, rfl, rfl, rfl⟩⟩
    · split
      · exact ⟨fun hs => Bool.noConfusion hs, fun _ => ⟨rfl, rfl, rfl, rfl⟩⟩
      · rcases hp : process health oll groq validate exec with e | r
        · exact ⟨fun hs => Bool.noConfusion hs, fun _ => ⟨rfl, rfl, rfl, rfl⟩⟩
        · have hc := process_ok_fields hp
          exact ⟨fun hs => hc.1 hs, fun hs => hc.2 hs⟩

/-- Witness for C6: a fully successful concrete pipeline run is consistent
on the success side. -/
theorem C6_outcome_consistency_witness :
    (routeQuery ("q") (some (Datasource.mk ("u") ("mysql"))) ("u")
        (fun _ => process true (some ("SELECT 1")) none
          (fun _ => .ok (true, ""))
          (fun _ => .ok { data := [], columns := [], row_count := 0 }))).success = true ∧
    ((routeQuery ("q") (some (Datasource.mk ("u") ("mysql"))) ("u")
        (fun _ => process true (some ("SELECT 1")) none
          (fun _ => .ok (true, ""))
          (fun _ => .ok { data := [], columns := [], row_count := 0 }))).results.isSome = true ∧
      (routeQuery ("q") (some (Datasource.mk ("u") ("mysql"))) ("u")
        (fun _ => process true (some ("SELECT 1")) none
          (fun _ => .ok (true, ""))
          (fun _ => .ok { data := [], columns := [], row_count := 0 }))).columns.isSome = true ∧
      (routeQuery ("q") (some (Datasource.mk ("u") ("mysql"))) ("u")
        (fun _ => process true (some ("SELECT 1")) none
          (fun _ => .ok (true, ""))
          (fun _ =>
            .ok { data := [], columns := [], row_count := 0 }))).row_count.isSome = true ∧
      (routeQuery ("q") (some (Datasource.mk ("u") ("mysql"))) ("u")
        (fun _ => process true (some ("SELECT 1")) none
          (fun _ => .ok (true, ""))
          (fun _ => .ok { data := [], columns := [], row_count := 0 }))).error = none) :=
  ⟨rfl,
    (C6_outcome_consistency ("q") ("u") (some (Datasource.mk ("u") ("mysql"))) true
      (some ("SELECT 1")) none (fun _ => .ok (true, ""))
      (fun _ => .ok { data := [], columns := [], row_count := 0 })).1 rfl⟩

end IntelliQuery
